import Mathlib

/-!
Verification development for the twitch-indicator application.

The definitions below are a shallow embedding of the Rust sources:
  - src/api/models.rs   (response/domain models)
  - src/api/client.rs   (TwitchClient: request classification, pagination)
  - src/api/oauth.rs    (OAuthFlow: callback validation, accept loop, orchestrator)
  - src/config/mod.rs   (Config: token update)

Effectful parts are embedded by passing the environment explicitly:
network I/O is a pure oracle function from requests to responses, JSON
decoding (a serde_json library call in the source) is an oracle from body
strings to decoded values, and each client operation additionally returns
the list of network requests it issued, in order.  Fallible Rust code
returning anyhow::Result is embedded as Except String, the error being the
anyhow message (the outermost context string), because the source attaches
plain text messages, not a typed error enum.
-/

namespace TwitchIndicator

/-- Decidable equality for `Except`, so concrete runs can be checked by
`decide`. -/
instance exceptDecEq {ε α : Type} [DecidableEq ε] [DecidableEq α] :
    DecidableEq (Except ε α) := fun x y =>
  match x, y with
  | Except.ok v, Except.ok w =>
    if h : v = w then isTrue (by rw [h]) else isFalse (fun hh => h (Except.ok.inj hh))
  | Except.error v, Except.error w =>
    if h : v = w then isTrue (by rw [h]) else isFalse (fun hh => h (Except.error.inj hh))
  | Except.ok _, Except.error _ => isFalse (fun hh => Except.noConfusion hh)
  | Except.error _, Except.ok _ => isFalse (fun hh => Except.noConfusion hh)

/-! ### Domain models, from src/api/models.rs -/

/-- models.rs: `Pagination { cursor: Option<String> }`. -/
structure Pagination where
  cursor : Option String
deriving Repr, DecidableEq

/-- models.rs: `TwitchResponse<T> { data: Vec<T>, pagination: Option<Pagination> }`. -/
structure TwitchResponse (α : Type) where
  data : List α
  pagination : Option Pagination
deriving Repr

/-- models.rs: `FollowedChannel`. -/
structure FollowedChannel where
  broadcaster_id : String
  broadcaster_login : String
  broadcaster_name : String
  followed_at : String
deriving Repr, DecidableEq

/-- models.rs: `Stream`. -/
structure Stream where
  id : String
  user_id : String
  user_login : String
  user_name : String
  game_id : String
  game_name : String
  title : String
  viewer_count : Nat
  started_at : String
  language : String
  thumbnail_url : String
  tag_ids : List String
  is_mature : Bool
deriving Repr, DecidableEq

/-- models.rs: `User`. -/
structure User where
  id : String
  login : String
  display_name : String
  profile_image_url : String
  view_count : Nat
  created_at : String
deriving Repr, DecidableEq

/-- models.rs: `TokenValidation`. -/
structure TokenValidation where
  client_id : String
  login : String
  scopes : List String
  user_id : String
  expires_in : Nat
deriving Repr, DecidableEq

/-- models.rs: `TokenResponse`. -/
structure TokenResponse where
  access_token : String
  refresh_token : Option String
  token_type : String
  scope : List String
deriving Repr, DecidableEq

/-! ### API client request layer, from src/api/client.rs -/

/-- An HTTP GET request issued by the client: the URL built by
`make_api_request` plus the two headers it attaches. -/
structure ApiRequest where
  url : String
  headers : List (String × String)
deriving Repr, DecidableEq

/-- An HTTP response as the client observes it: status code and body text. -/
structure HttpResponse where
  status : Nat
  body : String
deriving Repr, DecidableEq

/-- client.rs lines 241-251: URL construction in `make_api_request`:
base url, "/", endpoint, and when params are nonempty a "?" followed by
"k=v" pairs joined with "&". -/
def build_api_url (endpoint : String) (params : List (String × String)) : String :=
  let base := "https://api.twitch.tv/helix/" ++ endpoint
  if params.isEmpty then base
  else base ++ "?" ++ String.intercalate "&" (params.map (fun p => p.1 ++ "=" ++ p.2))

/-- The request `make_api_request` sends for a given client id, token,
endpoint and params (client.rs lines 255-259: Client-ID and Bearer headers). -/
def api_request_of (client_id token endpoint : String)
    (params : List (String × String)) : ApiRequest :=
  ⟨build_api_url endpoint params,
   [("Client-ID", client_id), ("Authorization", "Bearer " ++ token)]⟩

/-- client.rs lines 264-279: the `match response.status()` of
`make_api_request`.  Only status 200 is success; 401 and 429 map to fixed
anyhow message strings; anything else maps to a message embedding the
status and body. -/
def classify_status (resp : HttpResponse) : Except String HttpResponse :=
  if resp.status = 200 then Except.ok resp
  else if resp.status = 401 then
    Except.error "Authentication failed - token may be expired"
  else if resp.status = 429 then
    Except.error "Rate limit exceeded"
  else
    Except.error ("API request failed (" ++ toString resp.status ++ "): " ++ resp.body)

/-- client.rs lines 231-280: `make_api_request`.  With no access token it
fails before any request is sent (lines 236-239); otherwise it sends one
request and classifies the response status.  The second component is the
list of requests issued. -/
def make_api_request (client_id : String) (access_token : Option String)
    (net : ApiRequest → HttpResponse) (endpoint : String)
    (params : List (String × String)) :
    Except String HttpResponse × List ApiRequest :=
  match access_token with
  | none => (Except.error "No access token available for API request", [])
  | some t =>
    let req := api_request_of client_id t endpoint params
    (classify_status (net req), [req])

/-- client.rs lines 64-89: `validate_token`.  With no token it fails before
any request (lines 64-68); otherwise it sends one GET with an
"OAuth token" authorization header (modelled as the request identifier),
treats any non-2xx status as failure, and decodes the body. -/
def validate_token (access_token : Option String)
    (net : String → HttpResponse)
    (decode : String → Except String TokenValidation) :
    Except String TokenValidation × List String :=
  match access_token with
  | none => (Except.error "No access token available", [])
  | some t =>
    let auth := "OAuth " ++ t
    let resp := net auth
    if 200 ≤ resp.status ∧ resp.status < 300 then
      (decode resp.body, [auth])
    else
      (Except.error ("Token validation failed: " ++ toString resp.status), [auth])

/-! ### Pagination, from src/api/client.rs `get_followed_channels` -/

/-- client.rs line 132: `channels_response.pagination.and_then(|p| p.cursor)`. -/
def cursor_of {α : Type} (resp : TwitchResponse α) : Option String :=
  resp.pagination.bind Pagination.cursor

/-- client.rs lines 109-141: the `loop` body of `get_followed_channels`.
The page oracle `net` maps the optional "after" cursor parameter of a
request to the decoded page for that request (the success path of
`make_api_request` plus JSON decoding).  `acc` and `reqs` accumulate the
collected items and the issued requests (identified by their cursor
parameter); `fuel` bounds the number of iterations because the source loop
has no bound of its own, and `none` is returned if fuel runs out while the
source would still be looping. -/
def get_followed_channels_run (net : Option String → TwitchResponse FollowedChannel) :
    Nat → Option String → List FollowedChannel → List (Option String) →
    Option (List FollowedChannel × List (Option String))
  | 0, _, _, _ => none
  | fuel + 1, cursor, acc, reqs =>
    let resp := net cursor
    let acc2 := acc ++ resp.data
    let reqs2 := reqs ++ [cursor]
    match cursor_of resp with
    | none => some (acc2, reqs2)
    | some c => get_followed_channels_run net fuel (some c) acc2 reqs2

/-- client.rs lines 109-141: `get_followed_channels`, started with no
cursor parameter and empty accumulators. -/
def get_followed_channels (net : Option String → TwitchResponse FollowedChannel)
    (fuel : Nat) : Option (List FollowedChannel × List (Option String)) :=
  get_followed_channels_run net fuel none [] []

/-- Checks that a request sequence is the cursor chain the loop follows
from starting cursor `c`: each request carries the cursor of the previous
response (whatever string it is, empty included), and only the last
response carries no cursor. -/
def chain_ok (net : Option String → TwitchResponse FollowedChannel) :
    Option String → List (Option String) → Bool
  | _, [] => false
  | c, [q] => decide (q = c) && decide (cursor_of (net q) = none)
  | c, q :: r :: rs =>
    decide (q = c) &&
      (cursor_of (net q)).elim false (fun nxt => chain_ok net (some nxt) (r :: rs))

/-! ### Single-page operations, from src/api/client.rs -/

/-- The one request `get_followed_streams` issues (client.rs lines 144-148). -/
def followed_streams_request (client_id token user_id : String) : ApiRequest :=
  api_request_of client_id token "streams/followed"
    [("user_id", user_id), ("first", "100")]

/-- client.rs lines 143-158: `get_followed_streams`.  One request, decode
the body, return `data`.  The response's pagination field is never read. -/
def get_followed_streams (client_id : String) (access_token : Option String)
    (net : ApiRequest → HttpResponse)
    (decode : String → Except String (TwitchResponse Stream))
    (user_id : String) :
    Except String (List Stream) × List ApiRequest :=
  let r := make_api_request client_id access_token net "streams/followed"
    [("user_id", user_id), ("first", "100")]
  match r.1 with
  | Except.error e => (Except.error e, r.2)
  | Except.ok resp =>
    match decode resp.body with
    | Except.error e => (Except.error e, r.2)
    | Except.ok env => (Except.ok env.data, r.2)

/-- client.rs lines 160-185: `get_streams_by_user_ids`.  An empty id list
returns `Ok(Vec::new())` before any request (lines 161-163). -/
def get_streams_by_user_ids (client_id : String) (access_token : Option String)
    (net : ApiRequest → HttpResponse)
    (decode : String → Except String (TwitchResponse Stream))
    (user_ids : List String) :
    Except String (List Stream) × List ApiRequest :=
  if user_ids.isEmpty then (Except.ok [], [])
  else
    let params := ("first", "100") :: user_ids.map (fun u => ("user_id", u))
    let r := make_api_request client_id access_token net "streams" params
    match r.1 with
    | Except.error e => (Except.error e, r.2)
    | Except.ok resp =>
      match decode resp.body with
      | Except.error e => (Except.error e, r.2)
      | Except.ok env => (Except.ok env.data, r.2)

/-- client.rs lines 187-209: `get_users_by_ids`.  An empty id list returns
`Ok(Vec::new())` before any request (lines 188-190). -/
def get_users_by_ids (client_id : String) (access_token : Option String)
    (net : ApiRequest → HttpResponse)
    (decode : String → Except String (TwitchResponse User))
    (user_ids : List String) :
    Except String (List User) × List ApiRequest :=
  if user_ids.isEmpty then (Except.ok [], [])
  else
    let params := user_ids.map (fun u => ("id", u))
    let r := make_api_request client_id access_token net "users" params
    match r.1 with
    | Except.error e => (Except.error e, r.2)
    | Except.ok resp =>
      match decode resp.body with
      | Except.error e => (Except.error e, r.2)
      | Except.ok env => (Except.ok env.data, r.2)

/-! ### OAuth callback validation, from src/api/oauth.rs -/

/-- oauth.rs lines 27-32: `AuthCallbackParams`, the parsed query of a
code-flow redirect. -/
structure AuthCallbackParams where
  code : Option String
  state : Option String
  error : Option String
deriving Repr, DecidableEq

/-- oauth.rs lines 157-179, the validation segment of
`handle_https_request` (after the static page has been written): first the
error field, then presence of `code`, then presence of `state`, then
string equality of `state` with the attempt's nonce.  Success carries the
authorization code forward to the token exchange. -/
def validate_callback (expected_state : String) (params : AuthCallbackParams) :
    Except String String :=
  match params.error with
  | some e => Except.error ("OAuth error: " ++ e)
  | none =>
    match params.code with
    | none => Except.error "No authorization code received"
    | some code =>
      match params.state with
      | none => Except.error "No state parameter received"
      | some st =>
        if st ≠ expected_state then
          Except.error ("State mismatch: expected " ++ expected_state ++ ", got " ++ st)
        else Except.ok code

/-- `str::starts_with`, embedded on the character lists of the strings
(the builtin `String.startsWith` works on byte positions, which do not
reduce in the kernel). -/
def starts_with (s pre : String) : Bool := pre.data.isPrefixOf s.data

/-- oauth.rs lines 291-404: `handle_https_request_implicit`, restricted to
its control flow on an already-read request line and body.  `parse_token`
is the serde_json decode of the POST body (a library call, passed as an
oracle); its failure is wrapped in the anyhow context message at line 385.
A request that is not a POST to /token is answered with the bootstrap page
and yields no result (`Ok(None)`). -/
def handle_https_request_implicit (parse_token : String → Except String TokenResponse)
    (request_line : String) (body : String) : Except String (Option TokenResponse) :=
  if starts_with request_line "POST /token" then
    match parse_token body with
    | Except.error _ => Except.error "Failed to parse token response"
    | Except.ok t => Except.ok (some t)
  else Except.ok none

/-! ### The accept loop, from src/api/oauth.rs lines 264-287
(`start_callback_server_implicit`; lines 91-113 are the identical loop of
`start_callback_server`). -/

/-- One accepted connection, as the loop body observes it: either the TLS
handshake failed, or the handshake succeeded and the handler returned the
given outcome (`Ok(None)` = no actionable callback yet, `Ok(Some t)` =
token obtained, `Err e` = handling failed). -/
inductive ConnEvent (ε α : Type) where
  | tlsFail : ConnEvent ε α
  | conn : Except ε (Option α) → ConnEvent ε α

/-- Whether a connection event determines a definitive outcome for the
attempt (the two arms of the match that send on the channel and return). -/
def ConnEvent.definitive {ε α : Type} : ConnEvent ε α → Bool
  | ConnEvent.conn (Except.ok (some _)) => true
  | ConnEvent.conn (Except.error _) => true
  | _ => false

/-- The `while let Ok(...) = listener.accept()` loop over a finite
sequence of accepted connections, returning the values sent on the
completion channel, in order.  A TLS failure is logged and skipped; a
handler `Ok(None)` continues; `Ok(Some t)` sends `Ok` and returns;
`Err e` sends the error and returns; exhausting the event list models
`accept` failing, which simply ends the loop. -/
def accept_loop {ε α : Type} : List (ConnEvent ε α) → List (Except ε α)
  | [] => []
  | ConnEvent.tlsFail :: rest => accept_loop rest
  | ConnEvent.conn (Except.ok none) :: rest => accept_loop rest
  | ConnEvent.conn (Except.ok (some t)) :: _ => [Except.ok t]
  | ConnEvent.conn (Except.error e) :: _ => [Except.error e]

/-! ### The authentication orchestrator, from src/api/oauth.rs -/

/-- oauth.rs lines 235-244: `get_auth_url`.  The redirect URI
"https://localhost:17563" appears percent-encoded (urlencoding::encode),
and the single scope list joins to "user:read:follows". -/
def get_auth_url (client_id state : String) : String :=
  "https://id.twitch.tv/oauth2/authorize" ++ "?client_id=" ++ client_id ++
    "&redirect_uri=" ++ "https%3A%2F%2Flocalhost%3A17563" ++
    "&response_type=token&scope=" ++ "user:read:follows" ++
    "&state=" ++ state ++ "&force_verify=true"

/-- The observable steps `authenticate` performs, in order. -/
inductive AuthEvent where
  | genNonce (nonce : String)
  | startListener (nonce : String)
  | openBrowser (url : String)
  | awaitChannel
deriving Repr, DecidableEq

/-- The environment one run of `authenticate` interacts with: the nonce
the uuid generator yields, whether starting the callback server succeeds,
whether opening the browser succeeds, and what the completion channel
delivers (`none` models the sender being dropped without a send, i.e. the
channel closing without a value). -/
structure AuthEnv where
  fresh_nonce : String
  listener_result : Except String Unit
  browser_result : Except String Unit
  channel : Option (Except String TokenResponse)

/-- oauth.rs lines 57-69: `authenticate`.  Generates the nonce, builds the
authorization URL from it, starts the callback server (propagating its
failure), opens the browser (failure becomes the context message at line
66), then awaits the completion channel; a channel closed without a value
becomes the context message at line 68, and a delivered value is returned
as is.  The second component is the trace of steps performed, in order. -/
def authenticate (client_id : String) (env : AuthEnv) :
    Except String TokenResponse × List AuthEvent :=
  let state := env.fresh_nonce
  let auth_url := get_auth_url client_id state
  match env.listener_result with
  | Except.error e =>
    (Except.error e, [AuthEvent.genNonce state, AuthEvent.startListener state])
  | Except.ok _ =>
    match env.browser_result with
    | Except.error _ =>
      (Except.error "Failed to open browser",
       [AuthEvent.genNonce state, AuthEvent.startListener state,
        AuthEvent.openBrowser auth_url])
    | Except.ok _ =>
      let trace := [AuthEvent.genNonce state, AuthEvent.startListener state,
                    AuthEvent.openBrowser auth_url, AuthEvent.awaitChannel]
      match env.channel with
      | none => (Except.error "Failed to receive OAuth callback", trace)
      | some r => (r, trace)

/-! ### Configuration, from src/config/mod.rs -/

/-- config/mod.rs lines 21-28: `TwitchConfig`. -/
structure TwitchConfig where
  client_id : String
  redirect_uri : String
  access_token : Option String
  refresh_token : Option String
  refresh_interval_minutes : Nat
deriving Repr, DecidableEq

/-- config/mod.rs lines 30-36: `NotificationConfig`. -/
structure NotificationConfig where
  enabled : Bool
  show_game : Bool
  show_viewer_count : Bool
  timeout_ms : Nat
deriving Repr, DecidableEq

/-- config/mod.rs lines 38-42: `UiConfig`. -/
structure UiConfig where
  show_selected_channels_on_top : Bool
  dark_theme : Bool
deriving Repr, DecidableEq

/-- config/mod.rs lines 44-48: `GeneralConfig`. -/
structure GeneralConfig where
  autostart : Bool
  minimize_to_tray : Bool
deriving Repr, DecidableEq

/-- config/mod.rs lines 50-56: `StreamOpenConfig`. -/
structure StreamOpenConfig where
  program : Option String
  arguments : List String
  extra_command : Option String
  extra_arguments : List String
deriving Repr, DecidableEq

/-- config/mod.rs lines 12-19: `Config`. -/
structure Config where
  twitch : TwitchConfig
  notifications : NotificationConfig
  ui : UiConfig
  general : GeneralConfig
  stream_open : StreamOpenConfig
deriving Repr, DecidableEq

/-- config/mod.rs lines 58-90: `Config::default()`. -/
def default_config : Config :=
  { twitch :=
      { client_id := "pdnu3rmmjndvi58vd5f19l5rxqvu6c"
        redirect_uri := "https://localhost:17563"
        access_token := none
        refresh_token := none
        refresh_interval_minutes := 2 }
    notifications :=
      { enabled := true, show_game := true, show_viewer_count := true
        timeout_ms := 5000 }
    ui := { show_selected_channels_on_top := true, dark_theme := true }
    general := { autostart := false, minimize_to_tray := true }
    stream_open :=
      { program := none, arguments := [], extra_command := none
        extra_arguments := [] } }

/-- config/mod.rs lines 154-159: `Config::update_tokens`.  The access
token is always overwritten; the refresh token is overwritten only when a
new one is given. -/
def update_tokens (cfg : Config) (access_token : String)
    (refresh_token : Option String) : Config :=
  let cfg1 : Config :=
    { cfg with twitch := { cfg.twitch with access_token := some access_token } }
  match refresh_token with
  | some r => { cfg1 with twitch := { cfg1.twitch with refresh_token := some r } }
  | none => cfg1

/-! ### Concrete environments used to exercise the definitions -/

/-- A followed channel whose four fields all carry the given tag. -/
def fcItem (n : String) : FollowedChannel := ⟨n, n, n, n⟩

/-- A synthetic paginated source: the first request (no cursor) answers
with cursor "a", then "a" answers with cursor "b", then "b" answers with
the present-but-empty cursor "", and "" answers with no pagination. -/
def c1net : Option String → TwitchResponse FollowedChannel
  | none => ⟨[fcItem "p0"], some ⟨some "a"⟩⟩
  | some "a" => ⟨[fcItem "p1"], some ⟨some "b"⟩⟩
  | some "b" => ⟨[fcItem "p2"], some ⟨some ""⟩⟩
  | some "" => ⟨[fcItem "p3"], none⟩
  | some _ => ⟨[], none⟩

/-- A two-page source with absent cursor on the second page, for
exercising the cursor-chain characterization on a terminating run. -/
def c1net2 : Option String → TwitchResponse FollowedChannel
  | none => ⟨[fcItem "q0"], some ⟨some "k"⟩⟩
  | some _ => ⟨[fcItem "q1"], none⟩

/-- An accept-loop schedule: one failed TLS handshake, then a connection
whose handler obtains a token. -/
def c2_events : List (ConnEvent String Nat) :=
  [ConnEvent.tlsFail, ConnEvent.conn (Except.ok (some 5))]

/-- A network that answers every request with HTTP 401 and empty body. -/
def c3net401 : ApiRequest → HttpResponse := fun _ => ⟨401, ""⟩

/-- A network that answers every request with HTTP 429 and empty body. -/
def c3net429 : ApiRequest → HttpResponse := fun _ => ⟨429, ""⟩

/-- Erases the message of a string-typed error, keeping only which
constructor was used: everything a caller can observe without looking at
the message text. -/
def erase_msg {α : Type} : Except String α → Except Unit α
  | Except.error _ => Except.error ()
  | Except.ok a => Except.ok a

/-- A token-body decode that always fails, modelling serde_json rejecting
a malformed POST body. -/
def c5parse : String → Except String TokenResponse :=
  fun _ => Except.error "expected value"

/-- A stream record whose string fields all carry the given tag. -/
def streamItem (n : String) : Stream :=
  ⟨n, n, n, n, n, n, n, 0, n, n, n, [], false⟩

/-- A network that answers every request with HTTP 200 and body "page1". -/
def c6net : ApiRequest → HttpResponse := fun _ => ⟨200, "page1"⟩

/-- A decode oracle under which the first page carries a continuation
cursor "next" and a second page with further data exists. -/
def c6decode : String → Except String (TwitchResponse Stream) := fun body =>
  if body = "page1" then Except.ok ⟨[streamItem "s1"], some ⟨some "next"⟩⟩
  else Except.ok ⟨[streamItem "s2"], none⟩

/-- An authentication environment where listener start and browser launch
succeed and the completion channel closes without delivering a value. -/
def c9_env : AuthEnv := ⟨"nonce1", Except.ok (), Except.ok (), none⟩

/-! ### Theorems -/

/-- Claim C7: for every call to `get_streams_by_user_ids` or
`get_users_by_ids` with an empty id list, the call returns an empty list
and performs zero network requests. -/
theorem c7_empty_ids_zero_requests (client_id : String) (access_token : Option String)
    (net : ApiRequest → HttpResponse)
    (decodeS : String → Except String (TwitchResponse Stream))
    (decodeU : String → Except String (TwitchResponse User))
    (user_ids : List String) (h : user_ids = []) :
    get_streams_by_user_ids client_id access_token net decodeS user_ids
        = (Except.ok [], []) ∧
    get_users_by_ids client_id access_token net decodeU user_ids
        = (Except.ok [], []) := by
  subst h
  exact ⟨rfl, rfl⟩

/-- Witness for C7 at a concrete client with the empty id list. -/
theorem c7_empty_ids_zero_requests_witness :
    get_streams_by_user_ids "cid" (some "tok") c6net c6decode []
        = (Except.ok [], []) ∧
    get_users_by_ids "cid" (some "tok") c6net (fun _ => Except.ok ⟨[], none⟩) []
        = (Except.ok [], []) :=
  c7_empty_ids_zero_requests "cid" (some "tok") c6net c6decode
    (fun _ => Except.ok ⟨[], none⟩) [] rfl

/-- Claim C8: every API operation routed through `make_api_request`, and
`validate_token`, fails as a precondition failure when no access token is
held, and the issued-request list is empty: no network request is
attempted.  Stated for `make_api_request` itself, for `validate_token`,
and for the operations routed through `make_api_request`. -/
theorem c8_no_token_no_request (client_id endpoint user_id : String)
    (params : List (String × String)) (ids : List String)
    (net : ApiRequest → HttpResponse)
    (netv : String → HttpResponse)
    (decodeV : String → Except String TokenValidation)
    (decodeS : String → Except String (TwitchResponse Stream))
    (decodeU : String → Except String (TwitchResponse User)) :
    make_api_request client_id none net endpoint params
        = (Except.error "No access token available for API request", []) ∧
    validate_token none netv decodeV
        = (Except.error "No access token available", []) ∧
    get_followed_streams client_id none net decodeS user_id
        = (Except.error "No access token available for API request", []) ∧
    get_streams_by_user_ids client_id none net decodeS (user_id :: ids)
        = (Except.error "No access token available for API request", []) ∧
    get_users_by_ids client_id none net decodeU (user_id :: ids)
        = (Except.error "No access token available for API request", []) :=
  ⟨rfl, rfl, rfl, rfl, rfl⟩

/-- Claim C10: `update_tokens` sets the stored access token; a `none`
refresh token leaves the stored refresh token unchanged; no field other
than the two token fields is modified. -/
theorem c10_update_tokens_frame (cfg : Config) (a : String) (r : Option String) :
    (update_tokens cfg a r).twitch.access_token = some a ∧
    (r = none → (update_tokens cfg a r).twitch.refresh_token = cfg.twitch.refresh_token) ∧
    (∀ rt, r = some rt → (update_tokens cfg a r).twitch.refresh_token = some rt) ∧
    (update_tokens cfg a r).twitch.client_id = cfg.twitch.client_id ∧
    (update_tokens cfg a r).twitch.redirect_uri = cfg.twitch.redirect_uri ∧
    (update_tokens cfg a r).twitch.refresh_interval_minutes
        = cfg.twitch.refresh_interval_minutes ∧
    (update_tokens cfg a r).notifications = cfg.notifications ∧
    (update_tokens cfg a r).ui = cfg.ui ∧
    (update_tokens cfg a r).general = cfg.general ∧
    (update_tokens cfg a r).stream_open = cfg.stream_open := by
  cases r <;> simp [update_tokens]

/-- Witness for C10 on the default configuration with no refresh token. -/
theorem c10_update_tokens_frame_witness :
    (update_tokens default_config "a1" none).twitch.access_token = some "a1" ∧
    (update_tokens default_config "a1" none).twitch.refresh_token
        = default_config.twitch.refresh_token :=
  ⟨(c10_update_tokens_frame default_config "a1" none).1,
   (c10_update_tokens_frame default_config "a1" none).2.1 rfl⟩

/-- Claim C3 (amended): an HTTP 401 response surfaces as the fixed error
message "Authentication failed - token may be expired" and an HTTP 429
response as the fixed error message "Rate limit exceeded"; the two
messages are distinct, but both are plain strings of a single error
constructor, so the caller can tell them apart only by the message text. -/
theorem c3_status_classification (client_id token endpoint : String)
    (params : List (String × String)) (net : ApiRequest → HttpResponse) :
    ((net (api_request_of client_id token endpoint params)).status = 401 →
      (make_api_request client_id (some token) net endpoint params).1
          = Except.error "Authentication failed - token may be expired") ∧
    ((net (api_request_of client_id token endpoint params)).status = 429 →
      (make_api_request client_id (some token) net endpoint params).1
          = Except.error "Rate limit exceeded") ∧
    ("Authentication failed - token may be expired" : String)
        ≠ "Rate limit exceeded" := by
  refine ⟨?_, ?_, by decide⟩
  · intro h
    simp [make_api_request, classify_status, h]
  · intro h
    simp [make_api_request, classify_status, h]

/-- Witness for C3 (amended) on networks that always answer 401 and 429. -/
theorem c3_status_classification_witness :
    (make_api_request "cid" (some "tok") c3net401 "users" []).1
        = Except.error "Authentication failed - token may be expired" ∧
    (make_api_request "cid" (some "tok") c3net429 "users" []).1
        = Except.error "Rate limit exceeded" :=
  ⟨(c3_status_classification "cid" "tok" "users" [] c3net401).1 rfl,
   (c3_status_classification "cid" "tok" "users" [] c3net429).2.1 rfl⟩

/-- Claim C3, counterexample to the claim as stated: the code's error
type is a bare message string, not a typed kind.  Erasing the message
text leaves the 401 outcome and the 429 outcome equal, so the caller
cannot distinguish them without matching on the message strings. -/
theorem c3_counterexample :
    (make_api_request "cid" (some "tok") c3net401 "users" []).1
        = Except.error "Authentication failed - token may be expired" ∧
    (make_api_request "cid" (some "tok") c3net429 "users" []).1
        = Except.error "Rate limit exceeded" ∧
    erase_msg (make_api_request "cid" (some "tok") c3net401 "users" []).1
        = erase_msg (make_api_request "cid" (some "tok") c3net429 "users" []).1 :=
  ⟨rfl, rfl, rfl⟩

/-- Claim C2: over every schedule of accepted connections, the completion
channel is sent to at most once; and whenever some connection determines a
definitive outcome (a token is obtained or the handler fails), exactly one
send happens before the accept loop exits. -/
theorem c2_completion_channel_single_send (ε α : Type) (events : List (ConnEvent ε α)) :
    (accept_loop events).length ≤ 1 ∧
    ((∃ e ∈ events, ConnEvent.definitive e = true) →
      (accept_loop events).length = 1) := by
  induction events with
  | nil =>
    refine ⟨by simp [accept_loop], ?_⟩
    rintro ⟨e, he, -⟩
    simp at he
  | cons ev rest ih =>
    cases ev with
    | tlsFail =>
      refine ⟨by simpa [accept_loop] using ih.1, ?_⟩
      rintro ⟨e, he, hd⟩
      rcases List.mem_cons.mp he with h | h
      · subst h
        simp [ConnEvent.definitive] at hd
      · simpa [accept_loop] using ih.2 ⟨e, h, hd⟩
    | conn r =>
      cases r with
      | ok o =>
        cases o with
        | none =>
          refine ⟨by simpa [accept_loop] using ih.1, ?_⟩
          rintro ⟨e, he, hd⟩
          rcases List.mem_cons.mp he with h | h
          · subst h
            simp [ConnEvent.definitive] at hd
          · simpa [accept_loop] using ih.2 ⟨e, h, hd⟩
        | some t =>
          exact ⟨by simp [accept_loop], fun _ => by simp [accept_loop]⟩
      | error e =>
        exact ⟨by simp [accept_loop], fun _ => by simp [accept_loop]⟩

/-- Witness for C2 on a schedule with a failed handshake followed by a
connection that obtains a token. -/
theorem c2_completion_channel_single_send_witness :
    (accept_loop c2_events).length ≤ 1 ∧ (accept_loop c2_events).length = 1 :=
  ⟨(c2_completion_channel_single_send String Nat c2_events).1,
   (c2_completion_channel_single_send String Nat c2_events).2
     ⟨ConnEvent.conn (Except.ok (some 5)), by simp [c2_events], rfl⟩⟩

/-- Claim C4 (amended): the code-flow callback validation applies its
rules in this order: (1) a present error field fails with the provider's
error text, before any other check; (2) an absent authorization code
fails with the missing-code message, even when the state mismatches the
nonce; (3) an absent state fails with the missing-state message; (4) only
when both code and state are present is the state compared with the
nonce, a mismatch failing with the state-mismatch message; (5) otherwise
validation succeeds with the code. -/
theorem c4_validation_order (exp : String) (p : AuthCallbackParams) :
    (∀ e, p.error = some e →
      validate_callback exp p = Except.error ("OAuth error: " ++ e)) ∧
    (p.error = none → p.code = none →
      validate_callback exp p = Except.error "No authorization code received") ∧
    (∀ c, p.error = none → p.code = some c → p.state = none →
      validate_callback exp p = Except.error "No state parameter received") ∧
    (∀ c st, p.error = none → p.code = some c → p.state = some st → st ≠ exp →
      validate_callback exp p
          = Except.error ("State mismatch: expected " ++ exp ++ ", got " ++ st)) ∧
    (∀ c, p.error = none → p.code = some c → p.state = some exp →
      validate_callback exp p = Except.ok c) := by
  refine ⟨?_, ?_, ?_, ?_, ?_⟩
  · intro e he
    simp [validate_callback, he]
  · intro h1 h2
    simp [validate_callback, h1, h2]
  · intro c h1 h2 h3
    simp [validate_callback, h1, h2, h3]
  · intro c st h1 h2 h3 h4
    simp [validate_callback, h1, h2, h3, h4]
  · intro c h1 h2 h3
    simp [validate_callback, h1, h2, h3]

/-- Witness for C4 (amended): a denied payload fails with the provider
text before any other check, and a well-formed payload with a wrong state
fails with the state-mismatch message. -/
theorem c4_validation_order_witness :
    validate_callback "right" ⟨none, none, some "access_denied"⟩
        = Except.error ("OAuth error: " ++ "access_denied") ∧
    validate_callback "right" ⟨some "c0", some "wrong", none⟩
        = Except.error ("State mismatch: expected " ++ "right" ++ ", got " ++ "wrong") :=
  ⟨(c4_validation_order "right" ⟨none, none, some "access_denied"⟩).1
     "access_denied" rfl,
   (c4_validation_order "right" ⟨some "c0", some "wrong", none⟩).2.2.2.1
     "c0" "wrong" rfl rfl rfl (by decide)⟩

/-- Claim C4, counterexample to the claim as stated: a payload whose
state differs from the nonce but whose code is absent fails with the
missing-code message, not with the state-mismatch failure the claim
requires for every mismatched state. -/
theorem c4_counterexample :
    validate_callback "right" ⟨none, some "wrong", none⟩
        = Except.error "No authorization code received" ∧
    validate_callback "right" ⟨none, some "wrong", none⟩
        ≠ Except.error ("State mismatch: expected " ++ "right" ++ ", got " ++ "wrong") :=
  ⟨rfl, by decide⟩

/-- Claim C5 (amended): in the implicit-flow accept loop, only a failed
TLS handshake or a non-actionable request is swallowed (the loop
continues); any handler failure, including a parse failure of the token
POST body, is terminal for the attempt: it is sent on the completion
channel and the loop exits, as is a successful token. -/
theorem c5_loop_propagation (ε α : Type) (rest : List (ConnEvent ε α)) (e : ε) (t : α)
    (parse : String → Except String TokenResponse) (line body err : String) :
    accept_loop (ConnEvent.tlsFail :: rest) = accept_loop rest ∧
    accept_loop (ConnEvent.conn (Except.ok none) :: rest) = accept_loop rest ∧
    accept_loop (ConnEvent.conn (Except.error e) :: rest) = [Except.error e] ∧
    accept_loop (ConnEvent.conn (Except.ok (some t)) :: rest) = [Except.ok t] ∧
    (parse body = Except.error err → starts_with line "POST /token" = true →
      handle_https_request_implicit parse line body
          = Except.error "Failed to parse token response") := by
  refine ⟨rfl, rfl, rfl, rfl, ?_⟩
  intro h1 h2
  simp [handle_https_request_implicit, h1, h2]

/-- Witness for C5 (amended) on a malformed POST body. -/
theorem c5_loop_propagation_witness :
    accept_loop ([ConnEvent.tlsFail] : List (ConnEvent String TokenResponse))
        = accept_loop ([] : List (ConnEvent String TokenResponse)) ∧
    handle_https_request_implicit c5parse "POST /token HTTP/1.1" "notjson"
        = Except.error "Failed to parse token response" :=
  ⟨(c5_loop_propagation String TokenResponse [] "e" ⟨"t", none, "bearer", []⟩ c5parse
      "POST /token HTTP/1.1" "notjson" "expected value").1,
   (c5_loop_propagation String TokenResponse [] "e" ⟨"t", none, "bearer", []⟩ c5parse
      "POST /token HTTP/1.1" "notjson" "expected value").2.2.2.2 rfl (by decide)⟩

/-- Claim C5, counterexample to the claim as stated: a parse failure of
the token POST body is not swallowed — the loop sends the failure on the
completion channel and exits instead of continuing to listen. -/
theorem c5_counterexample :
    handle_https_request_implicit c5parse "POST /token HTTP/1.1" "notjson"
        = Except.error "Failed to parse token response" ∧
    accept_loop [ConnEvent.conn (handle_https_request_implicit c5parse
        "POST /token HTTP/1.1" "notjson")]
        = [Except.error "Failed to parse token response"] := by
  constructor
  · simp [handle_https_request_implicit, c5parse, starts_with]
  · simp [handle_https_request_implicit, c5parse, starts_with, accept_loop]

/-- Claim C6 (amended): `get_followed_streams` issues exactly one
request — the followed-streams request with no cursor parameter — and
returns exactly the data of that single response envelope; it does not
follow the continuation cursor, so any further pages are ignored. -/
theorem c6_followed_streams_single_page (client_id token user_id : String)
    (net : ApiRequest → HttpResponse)
    (decode : String → Except String (TwitchResponse Stream))
    (env : TwitchResponse Stream)
    (hok : (net (followed_streams_request client_id token user_id)).status = 200)
    (hdec : decode (net (followed_streams_request client_id token user_id)).body
        = Except.ok env) :
    get_followed_streams client_id (some token) net decode user_id
        = (Except.ok env.data, [followed_streams_request client_id token user_id]) := by
  simp only [followed_streams_request, api_request_of] at hok hdec
  simp [get_followed_streams, make_api_request, classify_status,
    followed_streams_request, api_request_of, hok, hdec]

/-- Witness for C6 (amended) on a network whose single page carries a
continuation cursor. -/
theorem c6_followed_streams_single_page_witness :
    get_followed_streams "cid" (some "tok") c6net c6decode "u1"
        = (Except.ok (TwitchResponse.data ⟨[streamItem "s1"], some ⟨some "next"⟩⟩),
           [followed_streams_request "cid" "tok" "u1"]) :=
  c6_followed_streams_single_page "cid" "tok" "u1" c6net c6decode
    ⟨[streamItem "s1"], some ⟨some "next"⟩⟩ rfl rfl

/-- Claim C6, counterexample to the claim as stated: under a source whose
first envelope carries cursor "next" and whose further pages hold more
data, `get_followed_streams` still issues exactly one request and returns
only the first page's items — it does not follow the cursor loop. -/
theorem c6_counterexample :
    c6decode ((c6net (followed_streams_request "cid" "tok" "u1")).body)
        = Except.ok ⟨[streamItem "s1"], some ⟨some "next"⟩⟩ ∧
    (get_followed_streams "cid" (some "tok") c6net c6decode "u1").1
        = Except.ok [streamItem "s1"] ∧
    (get_followed_streams "cid" (some "tok") c6net c6decode "u1").2.length = 1 ∧
    (get_followed_streams "cid" (some "tok") c6net c6decode "u1").1
        ≠ Except.ok ([streamItem "s1"] ++ [streamItem "s2"]) := by
  refine ⟨rfl, rfl, rfl, by decide⟩

/-- Claim C9: in every run of `authenticate` in which the listener starts
and the browser opens, the trace is exactly: generate the fresh nonce,
start the listener with that nonce, open the browser against the
authorization URL (which carries the nonce as its state parameter), and
then wait on the completion channel — nothing else; if the channel closes
without delivering a value the run fails with the terminal callback
error, and a delivered value is returned as is. -/
theorem c9_authenticate_order (client_id : String) (env : AuthEnv)
    (hl : env.listener_result = Except.ok ())
    (hb : env.browser_result = Except.ok ()) :
    (authenticate client_id env).2 =
        [AuthEvent.genNonce env.fresh_nonce,
         AuthEvent.startListener env.fresh_nonce,
         AuthEvent.openBrowser (get_auth_url client_id env.fresh_nonce),
         AuthEvent.awaitChannel] ∧
    (∃ pre post, get_auth_url client_id env.fresh_nonce
        = pre ++ "&state=" ++ env.fresh_nonce ++ post) ∧
    (env.channel = none →
      (authenticate client_id env).1 = Except.error "Failed to receive OAuth callback") ∧
    (∀ r, env.channel = some r → (authenticate client_id env).1 = r) := by
  refine ⟨?_, ?_, ?_, ?_⟩
  · cases hch : env.channel <;> simp [authenticate, hl, hb, hch]
  · exact ⟨"https://id.twitch.tv/oauth2/authorize" ++ "?client_id=" ++ client_id ++
      "&redirect_uri=" ++ "https%3A%2F%2Flocalhost%3A17563" ++
      "&response_type=token&scope=" ++ "user:read:follows",
      "&force_verify=true", rfl⟩
  · intro hch
    simp [authenticate, hl, hb, hch]
  · intro r hch
    simp [authenticate, hl, hb, hch]

/-- Witness for C9 on an environment whose channel closes with no value. -/
theorem c9_authenticate_order_witness :
    (authenticate "cid" c9_env).2 =
        [AuthEvent.genNonce c9_env.fresh_nonce,
         AuthEvent.startListener c9_env.fresh_nonce,
         AuthEvent.openBrowser (get_auth_url "cid" c9_env.fresh_nonce),
         AuthEvent.awaitChannel] ∧
    (∃ pre post, get_auth_url "cid" c9_env.fresh_nonce
        = pre ++ "&state=" ++ c9_env.fresh_nonce ++ post) ∧
    (c9_env.channel = none →
      (authenticate "cid" c9_env).1 = Except.error "Failed to receive OAuth callback") ∧
    (∀ r, c9_env.channel = some r → (authenticate "cid" c9_env).1 = r) :=
  c9_authenticate_order "cid" c9_env rfl rfl

/-- Every terminating run of the `get_followed_channels` loop body
produces exactly the requests of the cursor chain from its starting
cursor, and the concatenation of those requests' page data, appended to
the accumulators it started from. -/
theorem fc_run_characterization (net : Option String → TwitchResponse FollowedChannel) :
    ∀ (fuel : Nat) (c : Option String) (acc : List FollowedChannel)
      (rs : List (Option String)) (items : List FollowedChannel)
      (reqs : List (Option String)),
      get_followed_channels_run net fuel c acc rs = some (items, reqs) →
      ∃ reqs2, reqs = rs ++ reqs2 ∧ chain_ok net c reqs2 = true ∧
        items = acc ++ (reqs2.map (fun q => (net q).data)).flatten := by
  intro fuel
  induction fuel with
  | zero =>
    intro c acc rs items reqs h
    simp [get_followed_channels_run] at h
  | succ n ih =>
    intro c acc rs items reqs h
    simp only [get_followed_channels_run] at h
    cases hcur : cursor_of (net c) with
    | none =>
      rw [hcur] at h
      simp only [Option.some.injEq, Prod.mk.injEq] at h
      obtain ⟨hi, hr⟩ := h
      refine ⟨[c], hr.symm, ?_, ?_⟩
      · simp [chain_ok, hcur]
      · simp [← hi]
    | some nxt =>
      rw [hcur] at h
      obtain ⟨reqs2, hreq, hchain, hitems⟩ :=
        ih (some nxt) (acc ++ (net c).data) (rs ++ [c]) items reqs h
      refine ⟨c :: reqs2, ?_, ?_, ?_⟩
      · rw [hreq]
        simp
      · have hne : reqs2 ≠ [] := by
          intro h0
          rw [h0] at hchain
          simp [chain_ok] at hchain
        cases reqs2 with
        | nil => exact absurd rfl hne
        | cons r rsx =>
          simp [chain_ok, hcur]
          exact hchain
      · rw [hitems]
        simp

/-- Claim C1 (amended): every terminating run of `get_followed_channels`
issues one request per page, each request after the first carrying
exactly the cursor of the previous response — a present-but-empty cursor
included, since the loop only stops when the cursor is absent — and
returns the concatenation of all pages' data items in received order.
In particular, for a source returning cursors "a", then "b", then "",
it issues 4 requests, the fourth carrying the empty cursor, not 3. -/
theorem c1_followed_channels_pagination
    (net : Option String → TwitchResponse FollowedChannel) (fuel : Nat)
    (items : List FollowedChannel) (reqs : List (Option String))
    (h : get_followed_channels net fuel = some (items, reqs)) :
    chain_ok net none reqs = true ∧
    items = (reqs.map (fun q => (net q).data)).flatten := by
  obtain ⟨reqs2, hr, hc, hi⟩ :=
    fc_run_characterization net fuel none [] [] items reqs h
  rw [List.nil_append] at hr
  subst hr
  rw [List.nil_append] at hi
  exact ⟨hc, hi⟩

/-- Witness for C1 (amended) on a two-page source. -/
theorem c1_followed_channels_pagination_witness :
    chain_ok c1net2 none [none, some "k"] = true ∧
    [fcItem "q0", fcItem "q1"]
        = ([none, some "k"].map (fun q => (c1net2 q).data)).flatten :=
  c1_followed_channels_pagination c1net2 3
    [fcItem "q0", fcItem "q1"] [none, some "k"] rfl

/-- Claim C1, counterexample to the claim as stated: on the synthetic
source returning cursors "a", then "b", then the present-but-empty
cursor "", the loop issues a fourth request carrying the empty cursor —
it does not treat the empty cursor as absence and does not stop after
3 requests. -/
theorem c1_counterexample :
    get_followed_channels c1net 10 =
      some ([fcItem "p0", fcItem "p1", fcItem "p2", fcItem "p3"],
            [none, some "a", some "b", some ""]) ∧
    (get_followed_channels c1net 10).map (fun r => r.2.length) ≠ some 3 :=
  ⟨rfl, by decide⟩

end TwitchIndicator
